import Mathlib

/-!
Verification of the `PrivateSetIntersectionFHE` contract (src/unnamed/part_000)
against its natural-language specification.

Shallow embedding conventions:
* `uint256` values are `Nat` with an explicit `% 2 ^ 256` wherever the source
  arithmetic can overflow; `address` and `bytes32` values are `Nat`; `bytes`
  values are `List Nat` (one `Nat` per byte or opaque blob position).
* Solidity `mapping`s are association lists with Solidity's zero-value default
  on lookup of an absent key; an update conses a fresh binding.
* `msg.sender` and `block.timestamp` are passed as explicit arguments.
* The external FHE engine is abstract: `FHE.requestComputation` is modelled by
  an input token `fheReq` chosen by the engine, and `FHE.checkSignatures` by a
  boolean oracle `checkSignatures`; a failing check reverts the call.
* A function that can revert returns `Except`/`Option`; the transactional
  wrappers `callRequestMultiPSI` / `callReceivePSIResult` give the EVM
  semantics in which a revert restores the pre-call state.
-/

namespace PSIFHE

/-- `EncryptedSet` struct of the contract: id, owner, bytes32 items, timestamp. -/
structure EncryptedSet where
  id : Nat
  owner : Nat
  items : List Nat
  timestamp : Nat
  deriving Repr, DecidableEq

/-- `PSIRequest` struct of the contract.  Note: the source struct has no status
field of any kind. -/
structure PSIRequest where
  id : Nat
  requester : Nat
  participants : List Nat
  sizeOnly : Bool
  timestamp : Nat
  deriving Repr, DecidableEq

/-- Solidity zero value of `EncryptedSet` (default of an absent mapping key). -/
def EncryptedSet.zero : EncryptedSet := ⟨0, 0, [], 0⟩

/-- Solidity zero value of `PSIRequest` (default of an absent mapping key). -/
def PSIRequest.zero : PSIRequest := ⟨0, 0, [], false, 0⟩

/-- The five storage variables of the contract. -/
structure ContractState where
  setCount : Nat
  ownerToSetId : List (Nat × Nat)
  encryptedSets : List (Nat × EncryptedSet)
  psiRequests : List (Nat × PSIRequest)
  psiResults : List (Nat × List Nat)
  deriving Repr, DecidableEq

/-- Mapping read: first binding for the key, Solidity zero default otherwise. -/
def mlookup {α : Type} (m : List (Nat × α)) (k : Nat) (d : α) : α :=
  match m.find? (fun q => q.1 == k) with
  | some q => q.2
  | none => d

/-- Mapping write: shadow any previous binding for the key. -/
def mput {α : Type} (m : List (Nat × α)) (k : Nat) (v : α) : List (Nat × α) :=
  (k, v) :: m

/-- 2^256, the modulus of `uint256` arithmetic. -/
def MOD : Nat := 2 ^ 256

/-- View `getSetId(owner)`: reads the `ownerToSetId` mapping (0 when absent). -/
def getSetId (s : ContractState) (owner : Nat) : Nat :=
  mlookup s.ownerToSetId owner 0

/-- Read of the public `encryptedSets` mapping. -/
def getSet (s : ContractState) (sid : Nat) : EncryptedSet :=
  mlookup s.encryptedSets sid EncryptedSet.zero

/-- Read of the `psiRequests` mapping. -/
def getRequest (s : ContractState) (rid : Nat) : PSIRequest :=
  mlookup s.psiRequests rid PSIRequest.zero

/-- View `getEncryptedPSIResult(requestId)`: reads `psiResults` (empty bytes
when absent). -/
def getEncryptedPSIResult (s : ContractState) (rid : Nat) : List Nat :=
  mlookup s.psiResults rid []

/-- View `getEncryptedSetItems(setId)`. -/
def getEncryptedSetItems (s : ContractState) (sid : Nat) : List Nat :=
  (getSet s sid).items

/-- `submitEncryptedSet(items)`: increments `setCount`, stores the new
`EncryptedSet` under the new id, points `ownerToSetId[msg.sender]` at it, and
emits the new id (returned here as the second component). -/
def submitEncryptedSet (s : ContractState) (sender timestamp : Nat)
    (items : List Nat) : ContractState × Nat :=
  let newCount := (s.setCount + 1) % MOD
  let newId := newCount
  let sNew : EncryptedSet := ⟨newId, sender, items, timestamp⟩
  ({ s with
      setCount := newCount
      encryptedSets := mput s.encryptedSets newId sNew
      ownerToSetId := mput s.ownerToSetId sender newId },
   newId)

/-- Big-endian byte expansion of `x` into `w` bytes (the packed ABI encoding of
a fixed-size word). -/
def natToBytes (w x : Nat) : List Nat :=
  (List.range w).map (fun i => x / 256 ^ (w - 1 - i) % 256)

/-- `abi.encodePacked(msg.sender, block.timestamp, participants)`: a 20-byte
address, a 32-byte word, then each array element padded to 32 bytes. -/
def encodePacked (sender timestamp : Nat) (participants : List Nat) : List Nat :=
  natToBytes 20 sender ++ natToBytes 32 timestamp ++
    (participants.map (natToBytes 32)).flatten

/-- The two `require` messages `requestMultiPSI` can revert with. -/
inductive PSIError where
  | needTwoParticipants
  | participantMissingSet
  deriving Repr, DecidableEq

/-- The two gathering loops of `requestMultiPSI`: for each participant in list
order, append that participant's current set's items in stored order. -/
def gatherCiphertexts (s : ContractState) : List Nat → List Nat
  | [] => []
  | p :: rest => (getSet s (getSetId s p)).items ++ gatherCiphertexts s rest

/-- `requestMultiPSI(participants, sizeOnly)`.  `keccak` abstracts `keccak256`
(byte list to word, truncated by the `uint256` cast); `fheReq` is the token the
external engine returns from `FHE.requestComputation`.  On success the result
carries the post-state, the returned request id, and the flat ciphertext
sequence handed to the engine.  An `Except.error` is a revert. -/
def requestMultiPSI (s : ContractState) (sender timestamp : Nat)
    (keccak : List Nat → Nat) (fheReq : Nat)
    (participants : List Nat) (sizeOnly : Bool) :
    Except PSIError (ContractState × Nat × List Nat) :=
  if participants.length < 2 then .error .needTwoParticipants
  else
    let reqId := keccak (encodePacked sender timestamp participants) % MOD
    let r : PSIRequest := ⟨reqId, sender, participants, sizeOnly, timestamp⟩
    let s1 := { s with psiRequests := mput s.psiRequests reqId r }
    if participants.any (fun p => getSetId s1 p == 0) then
      .error .participantMissingSet
    else
      let allCiphertexts := gatherCiphertexts s1 participants
      let s2 := { s1 with psiRequests := mput s1.psiRequests fheReq r }
      .ok (s2, reqId, allCiphertexts)

/-- Transactional view of `requestMultiPSI`: a revert restores the pre-call
state and returns no id. -/
def callRequestMultiPSI (s : ContractState) (sender timestamp : Nat)
    (keccak : List Nat → Nat) (fheReq : Nat)
    (participants : List Nat) (sizeOnly : Bool) : ContractState × Option Nat :=
  match requestMultiPSI s sender timestamp keccak fheReq participants sizeOnly with
  | .ok (s2, rid, _) => (s2, some rid)
  | .error _ => (s, none)

/-- `receivePSIResult(requestId, encryptedResult, proof)`: checks the engine
signatures (reverting, i.e. `none`, on failure) and stores the encrypted
result.  `sender` is `msg.sender`, deliberately unused by the source. -/
def receivePSIResult (s : ContractState) (sender : Nat)
    (checkSignatures : Nat → List Nat → List Nat → Bool)
    (requestId : Nat) (encryptedResult proof : List Nat) : Option ContractState :=
  if checkSignatures requestId encryptedResult proof then
    some { s with psiResults := mput s.psiResults requestId encryptedResult }
  else
    none

/-- Transactional view of `receivePSIResult`: a revert restores the pre-call
state; the boolean records whether the call was accepted. -/
def callReceivePSIResult (s : ContractState) (sender : Nat)
    (checkSignatures : Nat → List Nat → List Nat → Bool)
    (requestId : Nat) (encryptedResult proof : List Nat) : ContractState × Bool :=
  match receivePSIResult s sender checkSignatures requestId encryptedResult proof with
  | some s2 => (s2, true)
  | none => (s, false)

/-- Request status vocabulary of the specification (section 3). -/
inductive RequestStatus where
  | pending
  | completed
  | failed
  deriving Repr, DecidableEq

/-- Follows the spec's words, for comparison with the source: the spec gives
each request a status Pending, Completed or Failed.  The source contract stores
no status field, so the only status derivable from its observable state is:
Completed when a result blob is stored for the id, Pending otherwise; no
contract state represents Failed. -/
def specRequestStatus (s : ContractState) (rid : Nat) : RequestStatus :=
  if getEncryptedPSIResult s rid = [] then .pending else .completed

/-! Concrete states used by counterexamples and witnesses. -/

/-- Fresh deployment: all storage empty / zero. -/
def emptyState : ContractState := ⟨0, [], [], [], []⟩

/-- State after owners 1 and 2 have each submitted one set
(set 1 = [100] owned by 1, set 2 = [200] owned by 2). -/
def twoOwnerState : ContractState :=
  ⟨2, [(2, 2), (1, 1)], [(2, ⟨2, 2, [200], 0⟩), (1, ⟨1, 1, [100], 0⟩)], [], []⟩

/-- A state holding one pending request under id 5 and no result. -/
def pendingReqState : ContractState :=
  ⟨0, [], [], [(5, ⟨5, 7, [11, 12], false, 3⟩)], []⟩

/-- A signature oracle that accepts everything. -/
def acceptAll : Nat → List Nat → List Nat → Bool := fun _ _ _ => true

/-- A signature oracle that rejects everything. -/
def rejectAll : Nat → List Nat → List Nat → Bool := fun _ _ _ => false

/-- First callback on a fresh deployment: result [1] for request id 5. -/
def firstCallback : Option ContractState :=
  receivePSIResult emptyState 7 acceptAll 5 [1] [9]

/-- Second callback for the same request id 5, now carrying result [2]. -/
def secondCallback : Option ContractState :=
  firstCallback.bind (fun s => receivePSIResult s 7 acceptAll 5 [2] [9])

/-- The post-state of a successful `requestMultiPSI`: the request record is
stored under both the derived id and the engine token. -/
def postRequestState (s : ContractState) (rid fheReq : Nat) (r : PSIRequest) :
    ContractState :=
  { s with psiRequests := mput (mput s.psiRequests rid r) fheReq r }

/-- The state change performed by an accepted `receivePSIResult`: the result
blob is stored under the request id. -/
def storeResult (s : ContractState) (requestId : Nat)
    (encryptedResult : List Nat) : ContractState :=
  { s with psiResults := mput s.psiResults requestId encryptedResult }

/-- The full outcome of a successful `requestMultiPSI`, for stating success
equations: post-state, derived request id, and dispatched handle sequence. -/
def expectedOk (s : ContractState) (sender timestamp : Nat)
    (keccak : List Nat → Nat) (fheReq : Nat)
    (participants : List Nat) (sizeOnly : Bool) :
    Except PSIError (ContractState × Nat × List Nat) :=
  Except.ok
    (postRequestState s (keccak (encodePacked sender timestamp participants) % MOD)
        fheReq
        ⟨keccak (encodePacked sender timestamp participants) % MOD, sender,
          participants, sizeOnly, timestamp⟩,
      keccak (encodePacked sender timestamp participants) % MOD,
      gatherCiphertexts s participants)

/-- A state holding a previously committed result [1] for request id 5. -/
def resultState : ContractState := ⟨0, [], [], [], [(5, [1])]⟩

/-! Helper lemmas about mapping reads and writes. -/

theorem mlookup_mput_same {α : Type} (m : List (Nat × α)) (k : Nat) (v d : α) :
    mlookup (mput m k v) k d = v := by
  simp [mlookup, mput, List.find?]

theorem mlookup_mput_other {α : Type} (m : List (Nat × α)) (k j : Nat)
    (v d : α) (h : j ≠ k) :
    mlookup (mput m k v) j d = mlookup m j d := by
  have hk : (k == j) = false := by
    simp [Ne.symm h]
  simp [mlookup, mput, List.find?, hk]

theorem gatherCiphertexts_psiRequests (s : ContractState)
    (m : List (Nat × PSIRequest)) (l : List Nat) :
    gatherCiphertexts { s with psiRequests := m } l = gatherCiphertexts s l := by
  induction l with
  | nil => rfl
  | cons p rest ih => simp [gatherCiphertexts, ih, getSet, getSetId]

theorem gatherCiphertexts_eq_flatten (s : ContractState) (l : List Nat) :
    gatherCiphertexts s l
      = (l.map (fun p => (getSet s (getSetId s p)).items)).flatten := by
  induction l with
  | nil => rfl
  | cons p rest ih => simp [gatherCiphertexts, ih]

/-- Shape of a successful `requestMultiPSI`: the returned id is the truncated
hash, the dispatched sequence is the gather over the pre-state, and the
post-state stores the request record under both the hash id and the engine
token. -/
theorem requestMultiPSI_ok (s : ContractState) (sender timestamp : Nat)
    (keccak : List Nat → Nat) (fheReq : Nat)
    (participants : List Nat) (sizeOnly : Bool)
    (s2 : ContractState) (rid : Nat) (disp : List Nat)
    (h : requestMultiPSI s sender timestamp keccak fheReq participants sizeOnly
        = .ok (s2, rid, disp)) :
    rid = keccak (encodePacked sender timestamp participants) % MOD ∧
    disp = gatherCiphertexts s participants ∧
    s2 = postRequestState s rid fheReq
        ⟨rid, sender, participants, sizeOnly, timestamp⟩ := by
  unfold requestMultiPSI at h
  split at h
  · exact absurd h (by simp)
  · simp only [] at h
    split at h
    · exact absurd h (by simp)
    · simp only [Except.ok.injEq, Prod.mk.injEq] at h
      obtain ⟨hs, hr, hd⟩ := h
      subst hr
      refine ⟨rfl, ?_, ?_⟩
      · rw [← hd, gatherCiphertexts_psiRequests]
      · rw [← hs]; rfl

/-- A successful `requestMultiPSI` requires at least two participants, each of
which has a current set. -/
theorem requestMultiPSI_ok_necessary (s : ContractState) (sender timestamp : Nat)
    (keccak : List Nat → Nat) (fheReq : Nat)
    (participants : List Nat) (sizeOnly : Bool)
    (s2 : ContractState) (rid : Nat) (disp : List Nat)
    (h : requestMultiPSI s sender timestamp keccak fheReq participants sizeOnly
        = .ok (s2, rid, disp)) :
    2 ≤ participants.length ∧ ∀ p ∈ participants, getSetId s p ≠ 0 := by
  unfold requestMultiPSI at h
  split at h
  · exact absurd h (by simp)
  · next h1 =>
    simp only [] at h
    split at h
    · exact absurd h (by simp)
    · next h2 =>
      refine ⟨by omega, ?_⟩
      intro p hp hp0
      apply h2
      simp only [List.any_eq_true]
      exact ⟨p, hp, beq_iff_eq.mpr hp0⟩

/-- With at least two participants, all of which have current sets,
`requestMultiPSI` succeeds with the expected outcome. -/
theorem requestMultiPSI_succeeds (s : ContractState) (sender timestamp : Nat)
    (keccak : List Nat → Nat) (fheReq : Nat)
    (participants : List Nat) (sizeOnly : Bool)
    (h2 : 2 ≤ participants.length)
    (hall : ∀ p ∈ participants, getSetId s p ≠ 0) :
    requestMultiPSI s sender timestamp keccak fheReq participants sizeOnly
      = expectedOk s sender timestamp keccak fheReq participants sizeOnly := by
  unfold requestMultiPSI expectedOk
  rw [if_neg (by omega)]
  simp only []
  split
  · next hany =>
    exfalso
    simp only [List.any_eq_true] at hany
    obtain ⟨p, hp, hp0⟩ := hany
    exact hall p hp (beq_iff_eq.mp hp0)
  · rw [gatherCiphertexts_psiRequests]; rfl

/-- A rejected `requestMultiPSI` (too few participants, or a participant with
no current set) reverts with one of the two require errors. -/
theorem requestMultiPSI_rejects (s : ContractState) (sender timestamp : Nat)
    (keccak : List Nat → Nat) (fheReq : Nat)
    (participants : List Nat) (sizeOnly : Bool)
    (h : participants.length < 2 ∨ ∃ p ∈ participants, getSetId s p = 0) :
    ∃ e, requestMultiPSI s sender timestamp keccak fheReq participants sizeOnly
      = .error e := by
  by_cases h1 : participants.length < 2
  · refine ⟨.needTwoParticipants, ?_⟩
    unfold requestMultiPSI
    rw [if_pos h1]
  · obtain ⟨p, hp, hp0⟩ := h.resolve_left h1
    refine ⟨.participantMissingSet, ?_⟩
    unfold requestMultiPSI
    rw [if_neg h1]
    simp only []
    split
    · rfl
    · next hany =>
      exfalso
      apply hany
      simp only [List.any_eq_true]
      exact ⟨p, hp, beq_iff_eq.mpr hp0⟩

/-! ## Claim C1: idempotent result commit -/

/-- Claim C1, counterexample: on a fresh deployment a first verified callback
stores result [1] for request id 5; a second verified callback for the same id
is accepted (not rejected as a duplicate) and overwrites the stored payload
with [2]. -/
theorem C1_counterexample :
    firstCallback.map (fun s => getEncryptedPSIResult s 5) = some [1] ∧
    secondCallback.map (fun s => getEncryptedPSIResult s 5) = some [2] := by
  constructor <;> rfl

/-- Claim C1, amended: `receivePSIResult` performs no duplicate check — in any
state already holding a committed result for `requestId`, a further callback
whose proof verifies is accepted and the stored payload becomes the new
`encryptedResult` (last write wins; the source stores no committedAt at all). -/
theorem C1_duplicate_callback_overwrites (s : ContractState) (sender : Nat)
    (checkSignatures : Nat → List Nat → List Nat → Bool)
    (requestId : Nat) (encryptedResult proof : List Nat)
    (hprev : getEncryptedPSIResult s requestId ≠ [])
    (hsig : checkSignatures requestId encryptedResult proof = true) :
    receivePSIResult s sender checkSignatures requestId encryptedResult proof
      = some (storeResult s requestId encryptedResult) ∧
    getEncryptedPSIResult (storeResult s requestId encryptedResult) requestId
      = encryptedResult := by
  constructor
  · simp [receivePSIResult, storeResult, hsig]
  · exact mlookup_mput_same _ _ _ _

/-- Witness for C1: in the state holding result [1] for id 5, a second verified
callback carrying [2] is accepted and the stored payload becomes [2]. -/
theorem C1_duplicate_callback_overwrites_witness :
    receivePSIResult resultState 7 acceptAll 5 [2] [9]
      = some (storeResult resultState 5 [2]) ∧
    getEncryptedPSIResult (storeResult resultState 5 [2]) 5 = [2] :=
  C1_duplicate_callback_overwrites resultState 7 acceptAll 5 [2] [9]
    (by decide) rfl

/-! ## Claim C2: unknown-request rejection -/

/-- Claim C2, counterexample: on a fresh deployment no `PSIRequest` with id 5
exists, yet a callback for id 5 whose proof verifies is accepted and stores a
result record instead of being rejected as an unknown request. -/
theorem C2_counterexample :
    getRequest emptyState 5 = PSIRequest.zero ∧
    (receivePSIResult emptyState 7 acceptAll 5 [1] [9]).map
        (fun s => getEncryptedPSIResult s 5) = some [1] := by
  constructor <;> rfl

/-- Claim C2, amended: `receivePSIResult` never looks up `psiRequests` — a
callback for a `requestId` with no request record, whose proof verifies, is
accepted and creates a result record; it does however create no request record
(`psiRequests` is untouched). -/
theorem C2_no_unknown_request_check (s : ContractState) (sender : Nat)
    (checkSignatures : Nat → List Nat → List Nat → Bool)
    (requestId : Nat) (encryptedResult proof : List Nat)
    (hnoreq : getRequest s requestId = PSIRequest.zero)
    (hsig : checkSignatures requestId encryptedResult proof = true) :
    receivePSIResult s sender checkSignatures requestId encryptedResult proof
      = some (storeResult s requestId encryptedResult) ∧
    getEncryptedPSIResult (storeResult s requestId encryptedResult) requestId
      = encryptedResult ∧
    getRequest (storeResult s requestId encryptedResult) requestId
      = PSIRequest.zero := by
  refine ⟨?_, mlookup_mput_same _ _ _ _, hnoreq⟩
  simp [receivePSIResult, storeResult, hsig]

/-- Witness for C2: concrete unknown-request callback on a fresh deployment. -/
theorem C2_no_unknown_request_check_witness :
    receivePSIResult emptyState 7 acceptAll 6 [1] [9]
      = some (storeResult emptyState 6 [1]) ∧
    getEncryptedPSIResult (storeResult emptyState 6 [1]) 6 = [1] ∧
    getRequest (storeResult emptyState 6 [1]) 6 = PSIRequest.zero :=
  C2_no_unknown_request_check emptyState 7 acceptAll 6 [1] [9] rfl rfl

/-! ## Claim C3: failed verification -/

/-- Claim C3, counterexample: with a pending request under id 5, a callback
whose proof fails verification reverts the whole call — the post-state equals
the pre-state, so the request's derivable status stays Pending and never
becomes Failed, contrary to the transition the claim demands. -/
theorem C3_counterexample :
    callReceivePSIResult pendingReqState 9 rejectAll 5 [1] [2]
      = (pendingReqState, false) ∧
    specRequestStatus pendingReqState 5 = RequestStatus.pending ∧
    specRequestStatus pendingReqState 5 ≠ RequestStatus.failed := by
  refine ⟨rfl, rfl, by decide⟩

/-- Claim C3, amended: a callback whose proof fails verification reverts — no
`PSIResult` is committed and the entire contract state is unchanged; since the
source stores no status field, the request is never marked Failed and simply
remains in its pending condition. -/
theorem C3_failed_proof_reverts (s : ContractState) (sender : Nat)
    (checkSignatures : Nat → List Nat → List Nat → Bool)
    (requestId : Nat) (encryptedResult proof : List Nat)
    (hsig : checkSignatures requestId encryptedResult proof = false) :
    callReceivePSIResult s sender checkSignatures requestId encryptedResult proof
      = (s, false) := by
  simp [callReceivePSIResult, receivePSIResult, hsig]

/-- Witness for C3: a rejected callback on the pending-request state leaves it
unchanged. -/
theorem C3_failed_proof_reverts_witness :
    callReceivePSIResult pendingReqState 9 rejectAll 6 [1] [2]
      = (pendingReqState, false) :=
  C3_failed_proof_reverts pendingReqState 9 rejectAll 6 [1] [2] rfl

/-! ## Claim C4: request-id derivation -/

/-- Claim C4, confirmed: every successful `requestMultiPSI` returns
`uint256(keccak256(abi.encodePacked(msg.sender, block.timestamp, participants)))`
— the hash of the packed requester, timestamp and participant list, reduced
modulo 2^256. -/
theorem C4_requestId_is_hash (s : ContractState) (sender timestamp : Nat)
    (keccak : List Nat → Nat) (fheReq : Nat)
    (participants : List Nat) (sizeOnly : Bool)
    (s2 : ContractState) (rid : Nat) (disp : List Nat)
    (h : requestMultiPSI s sender timestamp keccak fheReq participants sizeOnly
        = .ok (s2, rid, disp)) :
    rid = keccak (encodePacked sender timestamp participants) % MOD :=
  (requestMultiPSI_ok s sender timestamp keccak fheReq participants sizeOnly
    s2 rid disp h).1

/-- Witness for C4: a concrete successful request with a concrete hash
function returns the truncated hash of the packed arguments. -/
theorem C4_requestId_is_hash_witness :
    (9 : Nat) = (fun _ : List Nat => (9 : Nat)) (encodePacked 1 0 [1, 2]) % MOD :=
  C4_requestId_is_hash twoOwnerState 1 0 (fun _ => 9) 77 [1, 2] false
    (postRequestState twoOwnerState 9 77 ⟨9, 1, [1, 2], false, 0⟩) 9 [100, 200]
    (by rfl)

/-! ## Claim C5: dual-key correlation -/

/-- Claim C5, confirmed: after every successful `requestMultiPSI`, the engine's
correlation token and the returned request id resolve to the same stored
`PSIRequest` record. -/
theorem C5_dual_key_same_record (s : ContractState) (sender timestamp : Nat)
    (keccak : List Nat → Nat) (fheReq : Nat)
    (participants : List Nat) (sizeOnly : Bool)
    (s2 : ContractState) (rid : Nat) (disp : List Nat)
    (h : requestMultiPSI s sender timestamp keccak fheReq participants sizeOnly
        = .ok (s2, rid, disp)) :
    getRequest s2 fheReq = getRequest s2 rid := by
  obtain ⟨-, -, hs⟩ := requestMultiPSI_ok s sender timestamp keccak fheReq
    participants sizeOnly s2 rid disp h
  subst hs
  by_cases hk : rid = fheReq
  · subst hk; rfl
  · unfold getRequest postRequestState
    rw [mlookup_mput_same, mlookup_mput_other _ _ _ _ _ hk, mlookup_mput_same]

/-- Witness for C5: both keys of a concrete successful request resolve to the
same record. -/
theorem C5_dual_key_same_record_witness :
    getRequest (postRequestState twoOwnerState 9 77 ⟨9, 1, [1, 2], false, 0⟩) 77
      = getRequest (postRequestState twoOwnerState 9 77 ⟨9, 1, [1, 2], false, 0⟩) 9 :=
  C5_dual_key_same_record twoOwnerState 1 0 (fun _ => 9) 77 [1, 2] false
    (postRequestState twoOwnerState 9 77 ⟨9, 1, [1, 2], false, 0⟩) 9 [100, 200]
    (by rfl)

/-! ## Claim C6: dispatch ordering -/

/-- Claim C6, confirmed: the ciphertext sequence a successful `requestMultiPSI`
hands to the engine is the flat concatenation, in participant-list order with
intra-set order preserved, of each participant's current set's items. -/
theorem C6_dispatch_order (s : ContractState) (sender timestamp : Nat)
    (keccak : List Nat → Nat) (fheReq : Nat)
    (participants : List Nat) (sizeOnly : Bool)
    (s2 : ContractState) (rid : Nat) (disp : List Nat)
    (h : requestMultiPSI s sender timestamp keccak fheReq participants sizeOnly
        = .ok (s2, rid, disp)) :
    disp = (participants.map
        (fun p => (getSet s (getSetId s p)).items)).flatten := by
  obtain ⟨-, hd, -⟩ := requestMultiPSI_ok s sender timestamp keccak fheReq
    participants sizeOnly s2 rid disp h
  rw [hd, gatherCiphertexts_eq_flatten]

/-- Witness for C6: with owners 1 and 2 holding sets [100] and [200], the
request for [1, 2] dispatches [100, 200] in that order. -/
theorem C6_dispatch_order_witness :
    [100, 200] = (([1, 2] : List Nat).map
        (fun p => (getSet twoOwnerState (getSetId twoOwnerState p)).items)).flatten :=
  C6_dispatch_order twoOwnerState 1 0 (fun _ => 9) 77 [1, 2] false
    (postRequestState twoOwnerState 9 77 ⟨9, 1, [1, 2], false, 0⟩) 9 [100, 200]
    (by rfl)

/-! ## Claim C7: participant validation -/

/-- Claim C7, counterexample: with owner 1 holding a current set, a request
with the duplicated participant list [1, 1] succeeds — the source checks only
the participant count, never pairwise distinctness — refuting "with [A, A]
always fails with a ValidationError". -/
theorem C7_counterexample :
    requestMultiPSI twoOwnerState 1 0 (fun _ => 8) 50 [1, 1] false
      = Except.ok (⟨2, [(2, 2), (1, 1)],
          [(2, ⟨2, 2, [200], 0⟩), (1, ⟨1, 1, [100], 0⟩)],
          [(50, ⟨8, 1, [1, 1], false, 0⟩), (8, ⟨8, 1, [1, 1], false, 0⟩)], []⟩,
        8, [100, 100]) := by rfl

/-- Claim C7, amended: a single-element participant list is always rejected
with the participant-count error, but a duplicated pair [a, a] is not rejected:
whenever `a` has a current set the call succeeds, because no pairwise
distinctness check exists in the source. -/
theorem C7_single_fails_duplicate_passes (s : ContractState)
    (sender timestamp : Nat) (keccak : List Nat → Nat) (fheReq : Nat)
    (a : Nat) (sizeOnly : Bool) (h : getSetId s a ≠ 0) :
    requestMultiPSI s sender timestamp keccak fheReq [a] sizeOnly
      = .error .needTwoParticipants ∧
    requestMultiPSI s sender timestamp keccak fheReq [a, a] sizeOnly
      = expectedOk s sender timestamp keccak fheReq [a, a] sizeOnly := by
  constructor
  · rfl
  · apply requestMultiPSI_succeeds
    · simp
    · intro p hp
      simp only [List.mem_cons, List.not_mem_nil, or_false] at hp
      rcases hp with rfl | rfl <;> exact h

/-- Witness for C7: owner 1 holds a set, [1] is rejected, [1, 1] succeeds. -/
theorem C7_single_fails_duplicate_passes_witness :
    requestMultiPSI twoOwnerState 1 0 (fun _ => 8) 50 [1] false
      = .error .needTwoParticipants ∧
    requestMultiPSI twoOwnerState 1 0 (fun _ => 8) 50 [1, 1] false
      = expectedOk twoOwnerState 1 0 (fun _ => 8) 50 [1, 1] false :=
  C7_single_fails_duplicate_passes twoOwnerState 1 0 (fun _ => 8) 50 1 false
    (by decide)

/-! ## Claim C8: atomic rejection -/

/-- Claim C8, confirmed: rejection is atomic — whenever `requestMultiPSI`
rejects a request (fewer than two participants, or some participant without a
current set), the reverted call leaves the contract state exactly as it was
and returns no request id, so no record, pointer or index is created or
modified. -/
theorem C8_rejection_atomic (s : ContractState) (sender timestamp : Nat)
    (keccak : List Nat → Nat) (fheReq : Nat)
    (participants : List Nat) (sizeOnly : Bool)
    (h : participants.length < 2 ∨ ∃ p ∈ participants, getSetId s p = 0) :
    callRequestMultiPSI s sender timestamp keccak fheReq participants sizeOnly
      = (s, none) := by
  obtain ⟨e, he⟩ := requestMultiPSI_rejects s sender timestamp keccak fheReq
    participants sizeOnly h
  unfold callRequestMultiPSI
  rw [he]

/-- Witness for C8: a single-participant request on a fresh deployment reverts
and leaves the state unchanged. -/
theorem C8_rejection_atomic_witness :
    callRequestMultiPSI emptyState 1 0 (fun _ => 0) 0 [1] false
      = (emptyState, none) :=
  C8_rejection_atomic emptyState 1 0 (fun _ => 0) 0 [1] false
    (Or.inl (by decide))

/-! ## Claim C9: fresh set ids -/

/-- Claim C9, confirmed: in any well-formed state (every assigned set id is at
most `setCount`, which is below the uint256 wrap), `submitEncryptedSet` emits a
fresh id that collides with no previously assigned id, and immediately
afterwards `getSetId(owner)` equals that id. -/
theorem C9_fresh_id_and_pointer (s : ContractState) (sender timestamp : Nat)
    (items : List Nat)
    (hov : s.setCount + 1 < MOD)
    (hwf : ∀ sid : Nat, (getSet s sid).id ≠ 0 → sid ≤ s.setCount) :
    (∀ sid : Nat, (getSet s sid).id ≠ 0 →
        sid ≠ (submitEncryptedSet s sender timestamp items).2) ∧
    getSetId (submitEncryptedSet s sender timestamp items).1 sender
      = (submitEncryptedSet s sender timestamp items).2 := by
  have h2 : (submitEncryptedSet s sender timestamp items).2 = s.setCount + 1 := by
    simp [submitEncryptedSet, Nat.mod_eq_of_lt hov]
  constructor
  · intro sid hsid
    rw [h2]
    have := hwf sid hsid
    omega
  · exact mlookup_mput_same _ _ _ _

/-- Witness for C9: the first submission on a fresh deployment gets id 1, which
collided with nothing, and the owner pointer moves to it. -/
theorem C9_fresh_id_and_pointer_witness :
    getSetId (submitEncryptedSet emptyState 7 3 [100]).1 7
      = (submitEncryptedSet emptyState 7 3 [100]).2 :=
  (C9_fresh_id_and_pointer emptyState 7 3 [100] (by decide)
    (fun _ hs => absurd rfl hs)).2

/-! ## Claim C10: caller independence of the callback -/

/-- Claim C10, confirmed: `receivePSIResult` imposes no caller restriction —
from the same state with the same arguments, any two callers produce the
identical post-state and acceptance decision, so acceptance depends only on
proof verification and never on the caller's identity. -/
theorem C10_callback_caller_independent (s : ContractState)
    (sender1 sender2 : Nat)
    (checkSignatures : Nat → List Nat → List Nat → Bool)
    (requestId : Nat) (encryptedResult proof : List Nat) :
    callReceivePSIResult s sender1 checkSignatures requestId encryptedResult proof
      = callReceivePSIResult s sender2 checkSignatures requestId
          encryptedResult proof := rfl

end PSIFHE
